import Mathlib

/-!
Verification development for the comics-sales valuation and decision engine.

The definitions below are a shallow embedding of the Python source:
  * `src/app/main.py` — decision engine (`estimate_slab_multiplier`,
    `recommend_channel`, `compute_trend`, `dynamic_ask_multiplier`,
    `decision_for_row`);
  * `src/scripts/price_suggestions.py` — valuation aggregator
    (`median_val`, `dedupe_comp_rows`, `grade_trend_price`, the per-item
    body of `main`);
  * `src/scripts/fetch_ebay_comps.py` — comp matcher
    (`normalize`, `strict_title_issue_match`, `similarity_score`).

Numbers are embedded as exact rationals (ℚ) where the Python code uses
floats, and as real numbers (ℝ) where the code applies `math.exp` /
`math.log`.  Python's `round(x, n)` (round-half-to-even) is embedded as
round-to-nearest via Mathlib's `round`; the two differ only on exact
half-way ties, which no claim exercises.
-/

namespace ComicsSales

/-- Embeds Python `round(x, 2)`: round to the nearest cent. -/
def round2 (x : ℚ) : ℚ := (round (x * 100) : ℤ) / 100

/-- Embeds Python `round(x, 1)`: round to the nearest tenth. -/
def round1 (x : ℚ) : ℚ := (round (x * 10) : ℤ) / 10

/-- Python truthiness of an optional number: `None` and `0` are falsy.
Embeds conditions of the form `... if market else None`. -/
def qTruthy : Option ℚ → Bool
  | some m => m != 0
  | none => false

/-- One row of the decision-queue query in `src/app/main.py`
(`decision_queue`): item attributes joined with its valuation columns.
`grade_class` is the string computed by `grade_class_sql`
(one of "slabbed", "raw_community", "raw_no_community");
`qualified_flag` embeds the 0/1 integer column as a `Bool`
(the code only uses its truthiness). -/
structure Row where
  market_price : Option ℚ
  grade_class : String
  status : String
  grade_numeric : Option ℚ
  qualified_flag : Bool
  confidence : Option String
  active_anchor_price : Option ℚ
  active_count : ℤ

/-- The tunable economic assumptions (`DEFAULTS` in `src/app/main.py`,
each overridable per request). -/
structure Assumptions where
  platform_fee_rate : ℚ
  avg_ship_cost : ℚ
  cgc_grading_cost : ℚ
  cgc_ship_insure_cost : ℚ
  time_penalty_rate : ℚ
  slab_lift_min_dollars : ℚ
  slab_lift_min_pct : ℚ

/-- The `DEFAULTS` dict of `src/app/main.py`. -/
def defaultAssumptions : Assumptions :=
  { platform_fee_rate := 13/100
    avg_ship_cost := 15
    cgc_grading_cost := 45
    cgc_ship_insure_cost := 20
    time_penalty_rate := 5/100
    slab_lift_min_dollars := 150
    slab_lift_min_pct := 20/100 }

/-- `estimate_slab_multiplier` (src/app/main.py lines 82-92).
`g = grade_numeric or 0` maps `None` (and 0.0) to 0, embedded via `getD`. -/
def estimate_slab_multiplier (grade_numeric : Option ℚ) (qualified_flag : Bool) : ℚ :=
  if qualified_flag then 1
  else
    let g := grade_numeric.getD 0
    if 8 ≤ g then 135/100
    else if 6 ≤ g then 125/100
    else if 4 ≤ g then 115/100
    else 105/100

/-- `recommend_channel` (src/app/main.py lines 95-103); the `confidence`
and `is_key` parameters are unused by the source body, `is_key` (a
defaulted parameter never passed by callers) is dropped. -/
def recommend_channel (market_price : Option ℚ) (_confidence : Option String) : String :=
  let p := market_price.getD 0
  if 2500 ≤ p then "heritage_or_major_auction"
  else if 500 ≤ p then "ebay_fixed_price_offers"
  else if 150 ≤ p then "ebay_or_facebook_groups"
  else "ebay"

/-- `dynamic_ask_multiplier` (src/app/main.py lines 348-372).
`float(r.get("market_price") or 0)` is `getD 0`; confidence is
lower-cased by the source before comparison. -/
def dynamic_ask_multiplier (r : Row) : ℚ :=
  let market := r.market_price.getD 0
  let conf := (r.confidence.getD "").toLower
  let m0 : ℚ := 105/100
  let m1 := if r.grade_class = "slabbed" then m0 + 3/100 else m0
  let m2 := if conf = "high" then m1 + 2/100
            else if conf = "low" then m1 - 2/100 else m1
  let m3 := if 1000 ≤ market then m2 + 3/100
            else if 300 ≤ market then m2 + 1/100 else m2
  let m4 := if 8 ≤ r.active_count then m3 + 1/100
            else if r.active_count = 0 then m3 - 1/100 else m3
  max (103/100) (min (118/100) m4)

/-- The result dict of `decision_for_row`; keys absent from a given
branch's dict are embedded as `none`. -/
structure Decision where
  action : String
  net_raw : Option ℚ := none
  net_slabbed : Option ℚ := none
  slab_lift : Option ℚ := none
  slab_lift_pct : Option ℚ := none
  anchor_price : Option ℚ := none
  target_price : Option ℚ := none
  floor_price : Option ℚ := none
  channel_hint : Option String := none

/-- The anchor-price combination used twice in `decision_for_row`
(src/app/main.py lines 388-394 and 433-440): the model anchor is
`round(market * (1.3 if market ≥ 500 else 1.2), 2)` when `market` is
truthy, then combined with the active anchor by `max` when both exist. -/
def anchor_price_of (market : Option ℚ) (active_anchor : Option ℚ) : Option ℚ :=
  let anchor_mult : ℚ := if 500 ≤ market.getD 0 then 13/10 else 12/10
  let model_anchor : Option ℚ :=
    if qTruthy market then some (round2 (market.getD 0 * anchor_mult)) else none
  match model_anchor, active_anchor with
  | some ma, some aa => some (round2 (max ma aa))
  | none, some aa => some (round2 aa)
  | ma, none => ma

/-- `decision_for_row` (src/app/main.py lines 375-455). -/
def decision_for_row (r : Row) (a : Assumptions) : Decision :=
  let market := r.market_price
  if r.status = "sold" then { action := "already_sold" }
  else if r.grade_class = "slabbed" then
    let target_mult := dynamic_ask_multiplier r
    { action := "list_now_slabbed"
      target_price :=
        if qTruthy market then some (round2 (market.getD 0 * target_mult)) else none
      floor_price :=
        if qTruthy market then
          some (round2 (market.getD 0 * (if r.confidence = some "high" then 92/100 else 88/100)))
        else none
      anchor_price := anchor_price_of market r.active_anchor_price
      channel_hint := some (recommend_channel market r.confidence) }
  else
    match market with
    | none =>
      if r.grade_class = "raw_no_community" then
        { action := "get_community_grade", channel_hint := some "prep_community_then_ebay" }
      else
        { action := "needs_comps", channel_hint := some "ebay_fixed_price_offers" }
    | some m =>
      let net_raw := m * (1 - a.platform_fee_rate) - a.avg_ship_cost
      let slab_mult := estimate_slab_multiplier r.grade_numeric r.qualified_flag
      let expected_slab_gross := m * slab_mult
      let net_slabbed :=
        expected_slab_gross * (1 - a.platform_fee_rate)
          - a.avg_ship_cost
          - a.cgc_grading_cost
          - a.cgc_ship_insure_cost
          - expected_slab_gross * a.time_penalty_rate
      let slab_lift := net_slabbed - net_raw
      let slab_lift_pct := if 0 < net_raw then slab_lift / net_raw else 0
      let action :=
        if a.slab_lift_min_dollars ≤ slab_lift ∧ a.slab_lift_min_pct ≤ slab_lift_pct then
          "slab_candidate"
        else if r.grade_class = "raw_no_community" then "get_community_grade"
        else "sell_raw_now"
      { action := action
        net_raw := some (round2 net_raw)
        net_slabbed := some (round2 net_slabbed)
        slab_lift := some (round2 slab_lift)
        slab_lift_pct := some (round1 (slab_lift_pct * 100))
        anchor_price := anchor_price_of market r.active_anchor_price
        target_price :=
          if qTruthy market then some (round2 (market.getD 0 * dynamic_ask_multiplier r)) else none
        floor_price :=
          if qTruthy market then
            some (round2 (market.getD 0 * (if r.confidence = some "high" then 92/100 else 88/100)))
          else none
        channel_hint := some (recommend_channel market r.confidence) }

/-! ### Concrete rows used by the decision-engine claims -/

/-- The spec's decision scenario (§8): raw item, market price $200,
confidence "medium", grade 8.0, unqualified; community-grade evidence
present so the non-slab action resolves to selling raw. -/
def scenarioRow : Row :=
  { market_price := some 200, grade_class := "raw_community", status := "unlisted",
    grade_numeric := some 8, qualified_flag := false, confidence := some "medium",
    active_anchor_price := none, active_count := 0 }

/-- A slabbed, unsold item with no valuation record (market price unknown). -/
def slabbedNoMarketRow : Row :=
  { market_price := none, grade_class := "slabbed", status := "unlisted",
    grade_numeric := some 9, qualified_flag := false, confidence := none,
    active_anchor_price := none, active_count := 0 }

/-- A raw item with no community grading and no valuation record. -/
def rawNoCommunityNoMarketRow : Row :=
  { market_price := none, grade_class := "raw_no_community", status := "unlisted",
    grade_numeric := none, qualified_flag := false, confidence := none,
    active_anchor_price := none, active_count := 0 }

/-- A qualified raw item with a known positive market price. -/
def qualifiedRawRow : Row :=
  { market_price := some 300, grade_class := "raw_community", status := "unlisted",
    grade_numeric := some 7, qualified_flag := true, confidence := some "medium",
    active_anchor_price := none, active_count := 2 }

/-! ### C1 -/

/-- C1 counterexample: a slabbed, unsold item with unknown market price is
handled by the slabbed branch of `decision_for_row` (which precedes the
market-unknown check), so it gets action `list_now_slabbed`, not
`needs_comps` as the claim states. -/
theorem C1_slabbed_unknown_market_counterexample :
    (decision_for_row slabbedNoMarketRow defaultAssumptions).action = "list_now_slabbed" ∧
      (decision_for_row slabbedNoMarketRow defaultAssumptions).action ≠ "needs_comps" := by
  norm_num +decide [decision_for_row, slabbedNoMarketRow]

/-- C1 (amended): for an unsold, non-slabbed item with unknown market
price, `decision_for_row` returns `get_community_grade` when the grade
class is raw-no-community and `needs_comps` otherwise; slabbed items never
reach this branch (they get `list_now_slabbed`). -/
theorem C1_unknown_market_action (r : Row) (a : Assumptions)
    (h1 : r.status ≠ "sold") (h2 : r.grade_class ≠ "slabbed")
    (h3 : r.market_price = none) :
    (decision_for_row r a).action =
      (if r.grade_class = "raw_no_community" then "get_community_grade" else "needs_comps") := by
  by_cases hc : r.grade_class = "raw_no_community" <;>
    simp [decision_for_row, h1, h2, h3, hc]

/-- Witness for C1 (amended) at a concrete raw-no-community row. -/
theorem C1_unknown_market_action_witness :
    rawNoCommunityNoMarketRow.status ≠ "sold" ∧
      rawNoCommunityNoMarketRow.grade_class ≠ "slabbed" ∧
      rawNoCommunityNoMarketRow.market_price = none ∧
      (decision_for_row rawNoCommunityNoMarketRow defaultAssumptions).action =
        (if rawNoCommunityNoMarketRow.grade_class = "raw_no_community" then
          "get_community_grade" else "needs_comps") :=
  ⟨by decide, by decide, rfl,
    C1_unknown_market_action rawNoCommunityNoMarketRow defaultAssumptions
      (by decide) (by decide) rfl⟩

/-! ### C2 -/

/-- C2 counterexample: at the claim's own scenario (grade 8.0, unqualified),
`estimate_slab_multiplier` returns 1.35, not the claimed 1.15, so the
expected slab gross is $270 (not $230) and the slab lift is −$17.60
(not ≈ $11.95). -/
theorem C2_scenario_counterexample :
    estimate_slab_multiplier (some 8) false = 27/20 ∧
      estimate_slab_multiplier (some 8) false ≠ 23/20 ∧
      (decision_for_row scenarioRow defaultAssumptions).slab_lift = some (-(88/5)) ∧
      (decision_for_row scenarioRow defaultAssumptions).slab_lift ≠ some (239/20) := by
  norm_num +decide [decision_for_row, estimate_slab_multiplier, round2, round1, round_eq,
    defaultAssumptions, scenarioRow]

/-- C2 (amended): in the spec's decision scenario (raw item, market $200,
confidence "medium", grade 8.0 unqualified, default assumptions) the code
yields net_raw $159, slab multiplier 1.35, expected slab gross $270,
net_slabbed $141.40, slab lift −$17.60 (−11.1% of net_raw, below the $150
threshold), and action `sell_raw_now`. -/
theorem C2_scenario :
    (decision_for_row scenarioRow defaultAssumptions).net_raw = some 159 ∧
      estimate_slab_multiplier scenarioRow.grade_numeric scenarioRow.qualified_flag = 27/20 ∧
      (decision_for_row scenarioRow defaultAssumptions).net_slabbed = some (707/5) ∧
      (decision_for_row scenarioRow defaultAssumptions).slab_lift = some (-(88/5)) ∧
      (decision_for_row scenarioRow defaultAssumptions).slab_lift_pct = some (-(111/10)) ∧
      (decision_for_row scenarioRow defaultAssumptions).action = "sell_raw_now" := by
  norm_num +decide [decision_for_row, estimate_slab_multiplier, round2, round1, round_eq,
    defaultAssumptions, scenarioRow]

/-! ### C10 -/

/-- C10: an unsold raw item with a known positive market price whose
qualified flag is set never gets action `slab_candidate`: the qualified
slab multiplier is 1.0, so the slab lift is −(cert + cert-ship + market ×
time-penalty) ≤ 0, which cannot clear a strictly positive dollar
threshold. -/
theorem C10_qualified_never_slab_candidate (r : Row) (a : Assumptions) (m : ℚ)
    (hst : r.status ≠ "sold") (hgc : r.grade_class ≠ "slabbed")
    (hm : r.market_price = some m) (hmpos : 0 < m) (hq : r.qualified_flag = true)
    (hfee : 0 ≤ a.platform_fee_rate) (hship : 0 ≤ a.avg_ship_cost)
    (hcert : 0 ≤ a.cgc_grading_cost) (hcship : 0 ≤ a.cgc_ship_insure_cost)
    (htp : 0 ≤ a.time_penalty_rate) (hmin : 0 < a.slab_lift_min_dollars) :
    (decision_for_row r a).action ≠ "slab_candidate" := by
  have hmult : estimate_slab_multiplier r.grade_numeric r.qualified_flag = 1 := by
    simp [estimate_slab_multiplier, hq]
  have hmtp : 0 ≤ m * a.time_penalty_rate := mul_nonneg hmpos.le htp
  simp only [decision_for_row, hm, hmult]
  rw [if_neg hst, if_neg hgc]
  by_cases hc : r.grade_class = "raw_no_community" <;> simp [hc] <;>
    (intro h1; exfalso; nlinarith)

/-- Witness for C10 at a concrete qualified raw row with default
assumptions. -/
theorem C10_qualified_never_slab_candidate_witness :
    qualifiedRawRow.status ≠ "sold" ∧ qualifiedRawRow.grade_class ≠ "slabbed" ∧
      qualifiedRawRow.market_price = some 300 ∧ (0:ℚ) < 300 ∧
      qualifiedRawRow.qualified_flag = true ∧
      (decision_for_row qualifiedRawRow defaultAssumptions).action ≠ "slab_candidate" :=
  ⟨by decide, by decide, rfl, by norm_num, rfl,
    C10_qualified_never_slab_candidate qualifiedRawRow defaultAssumptions 300
      (by decide) (by decide) rfl (by norm_num) rfl
      (by norm_num [defaultAssumptions]) (by norm_num [defaultAssumptions])
      (by norm_num [defaultAssumptions]) (by norm_num [defaultAssumptions])
      (by norm_num [defaultAssumptions]) (by norm_num [defaultAssumptions])⟩

/-! ### Comp matcher scoring (src/scripts/fetch_ebay_comps.py) -/

/-- The signal record produced by `parse_grade_signals`
(src/scripts/fetch_ebay_comps.py lines 185-207): grade value, grading
house, raw hint, signed hint. -/
structure ParsedSignals where
  grade_numeric : Option ℚ
  grade_company : Option String
  is_raw : Bool
  is_signed : Bool

/-- Python truthiness of an optional string: `None` and `""` are falsy. -/
def strTruthy : Option String → Bool
  | some s => s ≠ ""
  | none => false

/-- The grade-proximity term of `similarity_score`
(src/scripts/fetch_ebay_comps.py line 216):
`max(0.0, 0.65 - min(diff, 3.0) * 0.2)` for both-present grades. -/
def gradeProximity (tg cg : ℚ) : ℚ :=
  max 0 (65/100 - min |tg - cg| 3 * (2/10))

/-- The grade branch of `similarity_score`
(src/scripts/fetch_ebay_comps.py lines 213-218): proximity reward when
both grades are present, a fixed 0.15 credit when both are absent,
nothing otherwise. -/
def gradeTerm : Option ℚ → Option ℚ → ℚ
  | some tg, some cg => gradeProximity tg cg
  | none, none => 15/100
  | some _, none => 0
  | none, some _ => 0

/-- `similarity_score` (src/scripts/fetch_ebay_comps.py lines 210-229).
`target_is_slabbed` is the source's 0/1 int embedded as `Bool`;
`comp_slabbed = 1 if comp.get("grade_company") else 0` is string
truthiness of the grading-house tag. -/
def similarity_score (target_grade : Option ℚ) (target_is_slabbed : Bool)
    (comp : ParsedSignals) : ℚ :=
  let s1 := gradeTerm target_grade comp.grade_numeric
  let comp_slabbed := strTruthy comp.grade_company
  let s2 := if target_is_slabbed = comp_slabbed then s1 + 25/100
            else if target_is_slabbed ∧ comp.is_raw then s1 - 1/10 else s1
  let s3 := if comp.is_signed then s2 - 1/10 else s2
  max 0 (min 1 s3)

/-! ### C3 -/

/-- C3 counterexample: at target grade 9.8 and candidate grade 5.0 the
grades differ by 4.8 ≥ 3, yet the grade-proximity contribution is 0.05,
not zero — the falloff bottoms out at 0.65 − 3·0.2 = 0.05, and it also
shows up in the total score (0.30 instead of 0.25 for a slab-matching
candidate). -/
theorem C3_grade_window_counterexample :
    gradeProximity (98/10) 5 = 1/20 ∧ gradeProximity (98/10) 5 ≠ 0 ∧
      similarity_score (some (98/10)) true
        { grade_numeric := some 5, grade_company := some "CGC",
          is_raw := false, is_signed := false } = 3/10 := by
  have hct : strTruthy (some "CGC") = true := by decide
  refine ⟨?_, ?_, ?_⟩
  · norm_num [gradeProximity, min_def, max_def, abs_of_nonneg]
  · norm_num [gradeProximity, min_def, max_def, abs_of_nonneg]
  · simp only [similarity_score, gradeTerm, hct]
    norm_num [gradeProximity, min_def, max_def, abs_of_nonneg]

/-- C3 (amended): whenever the target grade and candidate grade differ by
3 or more points, the grade-proximity contribution of `similarity_score`
is exactly 0.05 (the linear falloff is capped at a 3-point difference and
bottoms out at 0.65 − 0.6 = 0.05, never zero). -/
theorem C3_grade_window_floor (tg cg : ℚ) (h : 3 ≤ |tg - cg|) :
    gradeProximity tg cg = 1/20 := by
  rw [gradeProximity, min_eq_right h]
  norm_num

/-- Witness for C3 (amended) at grades 9.8 and 5.0. -/
theorem C3_grade_window_floor_witness :
    3 ≤ |(98/10 : ℚ) - 5| ∧ gradeProximity (98/10) 5 = 1/20 :=
  ⟨by rw [abs_of_pos] <;> norm_num,
    C3_grade_window_floor (98/10) 5 (by rw [abs_of_pos] <;> norm_num)⟩

/-! ### Trend computation (src/app/main.py lines 106-128) -/

/-- Insertion sort step; embeds Python `sorted` on rational lists
(only the sorted order of values matters to the callers). -/
def insertQ (x : ℚ) : List ℚ → List ℚ
  | [] => [x]
  | y :: ys => if x ≤ y then x :: y :: ys else y :: insertQ x ys

/-- Ascending sort; embeds Python `sorted`. -/
def sortQ : List ℚ → List ℚ
  | [] => []
  | x :: xs => insertQ x (sortQ xs)

/-- Keeps a present, strictly positive value; the per-element test of
`[float(x) for x in prices_desc if x is not None and x > 0]`. -/
def keepPos : Option ℚ → Option ℚ
  | some v => if 0 < v then some v else none
  | none => none

/-- The filter `[float(x) for x in prices_desc if x is not None and x > 0]`
at the top of `compute_trend`. -/
def trendVals (prices_desc : List (Option ℚ)) : List ℚ :=
  prices_desc.filterMap keepPos

/-- Embeds `sorted(l)[len(l) // 2]` (the middle element of the sorted
list, the source's window "median"); out-of-range default 0 is never hit
by callers. -/
def midAt (l : List ℚ) : ℚ := (sortQ l).getD (l.length / 2) 0

/-- The percentage change between the two window medians of
`compute_trend`, `((recent_med - prior_med) / prior_med) * 100`. -/
def trendPct (vals : List ℚ) : ℚ :=
  (midAt (vals.take 5) - midAt ((vals.drop 5).take 5)) / midAt ((vals.drop 5).take 5) * 100

/-- `compute_trend` (src/app/main.py lines 106-128). -/
def compute_trend (prices_desc : List (Option ℚ)) : String × Option ℚ :=
  let vals := trendVals prices_desc
  if vals.length < 8 then ("insufficient", none)
  else
    let recent := vals.take 5
    let prior := (vals.drop 5).take 5
    if prior.length < 3 then ("insufficient", none)
    else
      let prior_med := midAt prior
      if prior_med ≤ 0 then ("insufficient", none)
      else
        let pct := (midAt recent - prior_med) / prior_med * 100
        let label := if 8 ≤ pct then "rising" else if pct ≤ -8 then "falling" else "flat"
        (label, some (round1 pct))

lemma mem_insertQ {a x : ℚ} {l : List ℚ} : a ∈ insertQ x l ↔ a = x ∨ a ∈ l := by
  induction l with
  | nil => simp [insertQ]
  | cons y ys ih =>
    by_cases h : x ≤ y <;> simp [insertQ, h, ih] <;> tauto

lemma mem_sortQ {a : ℚ} {l : List ℚ} : a ∈ sortQ l ↔ a ∈ l := by
  induction l with
  | nil => simp [sortQ]
  | cons y ys ih => simp [sortQ, mem_insertQ, ih]

lemma length_insertQ (x : ℚ) (l : List ℚ) : (insertQ x l).length = l.length + 1 := by
  induction l with
  | nil => simp [insertQ]
  | cons y ys ih =>
    by_cases h : x ≤ y <;> simp [insertQ, h, ih]

lemma length_sortQ (l : List ℚ) : (sortQ l).length = l.length := by
  induction l with
  | nil => simp [sortQ]
  | cons y ys ih => simp [sortQ, length_insertQ, ih]

lemma getD_mem_of_lt {l : List ℚ} {i : ℕ} (h : i < l.length) (d : ℚ) :
    l.getD i d ∈ l := by
  induction l generalizing i with
  | nil => simp at h
  | cons y ys ih =>
    cases i with
    | zero => simp
    | succ j =>
      simp only [List.getD_cons_succ]
      exact List.mem_cons_of_mem _ (ih (by simpa using h))

lemma midAt_mem {l : List ℚ} (h : l ≠ []) : midAt l ∈ l := by
  have hlen : 0 < l.length := List.length_pos.mpr h
  have hidx : l.length / 2 < (sortQ l).length := by
    rw [length_sortQ]
    exact Nat.div_lt_self hlen (by norm_num)
  exact mem_sortQ.mp (getD_mem_of_lt hidx 0)

lemma trendVals_pos {ps : List (Option ℚ)} {x : ℚ} (hx : x ∈ trendVals ps) : 0 < x := by
  simp only [trendVals, List.mem_filterMap] at hx
  obtain ⟨o, -, ho⟩ := hx
  cases o with
  | none => simp [keepPos] at ho
  | some v =>
    by_cases hv : 0 < v
    · simp only [keepPos, hv, if_pos] at ho
      rw [Option.some_inj] at ho
      exact ho ▸ hv
    · simp [keepPos, hv] at ho

/-! ### C8 -/

/-- The spec's trend example: 10 sold prices, newest first. -/
def trendExample : List (Option ℚ) :=
  [some 100, some 105, some 110, some 108, some 112,
   some 60, some 58, some 55, some 62, some 59]

/-- C8: `compute_trend` returns "insufficient" when fewer than 8 positive
prices are present; with at least 8 it labels by the ±8% thresholds on the
percentage change between the two window medians; and on the spec's
example it returns recent median 108 vs prior median 59, +83.1%,
"rising". -/
theorem C8_compute_trend_spec :
    (∀ ps, (trendVals ps).length < 8 → compute_trend ps = ("insufficient", none)) ∧
      (∀ ps, 8 ≤ (trendVals ps).length → compute_trend ps =
        ((if 8 ≤ trendPct (trendVals ps) then "rising"
          else if trendPct (trendVals ps) ≤ -8 then "falling" else "flat"),
          some (round1 (trendPct (trendVals ps))))) ∧
      midAt ((trendVals trendExample).take 5) = 108 ∧
      midAt (((trendVals trendExample).drop 5).take 5) = 59 ∧
      compute_trend trendExample = ("rising", some (831/10)) := by
  refine ⟨?_, ?_, ?_, ?_, ?_⟩
  · intro ps h
    simp only [compute_trend]
    rw [if_pos h]
  · intro ps h
    have hnot : ¬ (trendVals ps).length < 8 := not_lt.mpr h
    have hplen : (((trendVals ps).drop 5).take 5).length = min 5 ((trendVals ps).length - 5) := by
      simp [List.length_take, List.length_drop]
    have hp3 : ¬ (((trendVals ps).drop 5).take 5).length < 3 := by
      rw [hplen]
      omega
    have hpne : ((trendVals ps).drop 5).take 5 ≠ [] := by
      intro hnil
      rw [hnil] at hplen
      simp at hplen
      omega
    have hmpos : 0 < midAt (((trendVals ps).drop 5).take 5) :=
      trendVals_pos (List.drop_subset 5 _ (List.take_subset 5 _ (midAt_mem hpne)))
    simp only [compute_trend, trendPct]
    rw [if_neg hnot, if_neg hp3, if_neg (not_le.mpr hmpos)]
  · have hvals : trendVals trendExample = [100, 105, 110, 108, 112, 60, 58, 55, 62, 59] := by
      norm_num [trendVals, keepPos, trendExample, List.filterMap_cons]
    rw [hvals]
    norm_num [midAt, sortQ, insertQ]
  · have hvals : trendVals trendExample = [100, 105, 110, 108, 112, 60, 58, 55, 62, 59] := by
      norm_num [trendVals, keepPos, trendExample, List.filterMap_cons]
    rw [hvals]
    norm_num [midAt, sortQ, insertQ]
  · have hvals : trendVals trendExample = [100, 105, 110, 108, 112, 60, 58, 55, 62, 59] := by
      norm_num [trendVals, keepPos, trendExample, List.filterMap_cons]
    simp only [compute_trend, hvals]
    norm_num [midAt, sortQ, insertQ, round1, round_eq]

/-- Witness for C8's universally quantified parts at concrete inputs:
a 3-price list is insufficient, and the spec's 10-price example takes
the threshold branch. -/
theorem C8_compute_trend_spec_witness :
    (trendVals [some 5, none, some (-3)]).length < 8 ∧
      compute_trend [some 5, none, some (-3)] = ("insufficient", none) ∧
      8 ≤ (trendVals trendExample).length ∧
      compute_trend trendExample =
        ((if 8 ≤ trendPct (trendVals trendExample) then "rising"
          else if trendPct (trendVals trendExample) ≤ -8 then "falling" else "flat"),
          some (round1 (trendPct (trendVals trendExample)))) :=
  ⟨by norm_num [trendVals, keepPos, List.filterMap_cons],
    C8_compute_trend_spec.1 _ (by norm_num [trendVals, keepPos, List.filterMap_cons]),
    by norm_num [trendVals, keepPos, trendExample, List.filterMap_cons],
    C8_compute_trend_spec.2.1 _ (by norm_num [trendVals, keepPos, trendExample, List.filterMap_cons])⟩

/-! ### String utilities for the comp matcher

The matcher's regular expressions all operate on `normalize`d text, whose
alphabet is `[a-z0-9 ]` with single spaces; on that alphabet a `\b`
boundary is exactly a token boundary, so each regex is embedded as a
predicate over the token list of the normalized string (deviations for
degenerate inputs, e.g. zero-space `toy\s*biz` matches, are noted at each
definition). -/

/-- Generic prefix test on lists (used for both character and token
lists). -/
def prefixBEq {α : Type} [BEq α] : List α → List α → Bool
  | [], _ => true
  | _ :: _, [] => false
  | a :: as, b :: bs => a == b && prefixBEq as bs

/-- Generic contiguous-sublist test on lists. -/
def infixBEq {α : Type} [BEq α] : List α → List α → Bool
  | pat, [] => pat.isEmpty
  | pat, b :: rest => prefixBEq pat (b :: rest) || infixBEq pat rest

/-- One step of `normalize`: lower-case a character; keep `[a-z0-9]`,
map everything else to a space. -/
def normChar (c : Char) : Char :=
  let c := c.toLower
  if ('a' ≤ c ∧ c ≤ 'z') ∨ ('0' ≤ c ∧ c ≤ '9') then c else ' '

/-- Splits a character list on spaces into nonempty tokens (the
`\s+`-collapse and strip of `normalize`). -/
def tokenizeAux : List Char → List Char → List String
  | [], acc => if acc.isEmpty then [] else [String.mk acc.reverse]
  | c :: cs, acc =>
    if c = ' ' then
      if acc.isEmpty then tokenizeAux cs [] else String.mk acc.reverse :: tokenizeAux cs []
    else tokenizeAux cs (c :: acc)

/-- The word tokens of `normalize s`. -/
def normTokens (s : String) : List String := tokenizeAux (s.data.map normChar) []

/-- Joins tokens with single spaces. -/
def joinTokens : List String → String
  | [] => ""
  | [t] => t
  | t :: ts => t ++ " " ++ joinTokens ts

/-- `normalize` (src/scripts/fetch_ebay_comps.py lines 59-60; the same
code appears as `_norm_title` in src/scripts/price_suggestions.py lines
51-52): lower-case, replace non-alphanumerics by spaces, collapse and
strip whitespace. -/
def normalize (s : String) : String := joinTokens (normTokens s)

/-- Python's `in` on strings: substring containment. -/
def containsSubstr (s pat : String) : Bool := infixBEq pat.data s.data

/-! ### Title/issue admission matcher (src/scripts/fetch_ebay_comps.py) -/

/-- `SERIES_ALIASES` (src/scripts/fetch_ebay_comps.py lines 49-52). -/
def seriesAliases (t : String) : List String :=
  if t = "mighty thor" then ["mighty thor", "thor", "journey into mystery"]
  else if t = "x men" then ["x men", "the x men"]
  else []

/-- `SERIES_EXCLUDES` (src/scripts/fetch_ebay_comps.py lines 54-56). -/
def seriesExcludes (t : String) : List String :=
  if t = "x men" then
    ["astonishing x men", "uncanny x men", "all new x men", "x men legacy",
     "ultimate x men", "new x men"]
  else []

/-- The word alternatives of `EXCLUDE_TITLE_RE`
(src/scripts/fetch_ebay_comps.py line 45), as normalized token phrases;
the `\s*` separators become single token breaks (the zero-space variants
such as "toybiz" are not modeled — no claim exercises them). -/
def excludePhrases : List (List String) :=
  [["reprint"], ["variant"], ["facsimile"], ["toy", "biz"], ["promo"],
   ["marvel", "legends"], ["lot", "of"], ["set", "of"], ["blank", "cover"],
   ["homage"], ["incentive"], ["ratio", "variant"], ["marvel", "team", "up"]]

/-- `EXCLUDE_TITLE_RE.search(title)` as a token-phrase test. -/
def excludeHit (title : String) : Bool :=
  excludePhrases.any (fun p => infixBEq p (normTokens title))

/-- `ANNUAL_RE.search(title)`: the word "annual" appears. -/
def annualHit (title : String) : Bool := (normTokens title).contains "annual"

/-- Nonempty all-digit string; Python `str.isdigit` on ASCII. -/
def isDigitStr (t : String) : Bool :=
  !t.isEmpty && t.data.all (fun c => '0' ≤ c && c ≤ '9')

/-- A single token matching `vol\.?\s*[0-9]+\b` with no space, i.e.
"vol" immediately followed by digits. -/
def volSingle (t : String) : Bool :=
  3 < t.length && prefixBEq "vol".data t.data && isDigitStr (String.mk (t.data.drop 3))

/-- `VOL_RE.search(title)`: a "vol" token followed by an all-digit token,
or a single "vol<digits>" token. -/
def volMention : List String → Bool
  | [] => false
  | t :: rest =>
    (t == "vol" && (match rest with | t2 :: _ => isDigitStr t2 | [] => false))
      || volSingle t || volMention rest

/-- Decimal value of a digit list. -/
def digitsToNat (cs : List Char) : ℕ :=
  cs.foldl (fun acc c => acc * 10 + (c.toNat - 48)) 0

/-- `YEAR_RE.findall(title)`: the 4-digit tokens starting "19" or "20",
as numbers. -/
def yearTokens (title : String) : List ℕ :=
  (normTokens title).filterMap (fun t =>
    if t.length = 4 && isDigitStr t &&
        (prefixBEq "19".data t.data || prefixBEq "20".data t.data) then
      some (digitsToNat t.data)
    else none)

/-- Drops every token equal to `w`; embeds
`re.sub(r"\b<w>\b", "", s).strip()` followed by re-normalization. -/
def removeWordTokens (w : String) (toks : List String) : List String :=
  toks.filter (fun t => t != w)

/-- The title-variant set of `strict_title_issue_match`
(src/scripts/fetch_ebay_comps.py lines 118-123): the normalized title,
its aliases, and the title with "the" / "mighty" removed, all normalized
and nonempty (duplicates are harmless: the set is only used via `any`). -/
def titleVariants (tnorm : String) : List String :=
  if tnorm = "" then []
  else
    (([tnorm] ++ seriesAliases tnorm
      ++ [joinTokens (removeWordTokens "the" (normTokens tnorm)),
          joinTokens (removeWordTokens "mighty" (normTokens tnorm))]).map normalize).filter
      (fun v => v != "")

/-- Strip leading/trailing spaces; Python `str.strip()` (tab/newline
whitespace does not occur in the modeled fields). -/
def stripSpaces (s : String) : String :=
  String.mk (((s.data.dropWhile (fun c => c == ' ')).reverse.dropWhile
    (fun c => c == ' ')).reverse)

/-- The standalone-issue test
`(?<![a-z0-9])<issue>(?![a-z0-9])` on the normalized title: since the
normalized alphabet is `[a-z0-9 ]`, this holds exactly when some token
equals the issue string. -/
def issueStandalone (issue : String) (toks : List String) : Bool := toks.contains issue

/-- The letter-suffix test `\b<issue>[a-z]\b` on the normalized title:
some token is the issue string followed by exactly one letter. -/
def issueLetterSuffix (issue : String) (toks : List String) : Bool :=
  toks.any (fun t =>
    t.length = issue.length + 1 && prefixBEq issue.data t.data &&
      (match t.data.getLast? with
       | some c => 'a' ≤ c && c ≤ 'z'
       | none => false))

/-- The forward pair pattern
`\b<tv>\b(?:\s+\w+){0,6}\s*(?:#|no\.?|issue)?\s*<issue>\b` at token
level: the variant phrase, then 0-6 intermediate tokens, then the issue
token, optionally preceded by a "no"/"issue" marker token ("#" cannot
survive normalization). -/
def pairFwd (tvToks : List String) (issue : String) (toks : List String) : Bool :=
  (List.range (toks.length + 1)).any (fun i =>
    prefixBEq tvToks (toks.drop i) &&
      (List.range 7).any (fun g =>
        let j := i + tvToks.length + g
        toks.getD j "" == issue ||
          ((toks.getD j "" == "no" || toks.getD j "" == "issue") &&
            toks.getD (j + 1) "" == issue)))

/-- The backward pair pattern
`\b(?:#|no\.?|issue)?\s*<issue>\b(?:\s+\w+){0,6}\s*\b<tv>\b` at token
level: the issue token, then 0-6 intermediate tokens, then the variant
phrase (the optional leading marker does not constrain matching). -/
def pairBack (tvToks : List String) (issue : String) (toks : List String) : Bool :=
  (List.range (toks.length + 1)).any (fun i =>
    toks.getD i "" == issue &&
      (List.range 7).any (fun g => prefixBEq tvToks (toks.drop (i + 1 + g))))

/-- `strict_title_issue_match` (src/scripts/fetch_ebay_comps.py lines
101-168). `target_year and target_year < 1985` is Python truthiness:
year 0 (and None) never counts as pre-1985. -/
def strict_title_issue_match (target_title : String) (target_issue : Option String)
    (target_year : Option ℕ) (comp_title : String) : Bool :=
  let tnorm := normalize target_title
  let ctoks := normTokens comp_title
  let cnorm := joinTokens ctoks
  let preEra := match target_year with
    | some y => decide (y ≠ 0) && decide (y < 1985)
    | none => false
  if excludeHit comp_title then false
  else if annualHit target_title != annualHit comp_title then false
  else if volMention ctoks && preEra then false
  else
    let variants := titleVariants tnorm
    if !variants.isEmpty && !variants.any (fun v => containsSubstr cnorm v) then false
    else if (seriesExcludes tnorm).any (fun bad => containsSubstr cnorm (normalize bad)) then
      false
    else
      let issue := stripSpaces (target_issue.getD "")
      let issueOk :=
        if !issue.isEmpty && isDigitStr issue then
          if !issueStandalone issue ctoks then false
          else if issueLetterSuffix issue ctoks then false
          else if !variants.isEmpty &&
              !variants.any (fun tv =>
                pairFwd (normTokens tv) issue ctoks || pairBack (normTokens tv) issue ctoks) then
            false
          else true
        else true
      if !issueOk then false
      else if preEra then
        let years := yearTokens comp_title
        if years.any (fun z => 2000 ≤ z) then false
        else if tnorm = "x men" then
          if years.isEmpty then false
          else !years.all (fun z => 1985 < z)
        else true
      else true

/-! ### C9 -/

/-- C9: against target "Amazing Spider-Man" issue "20" year 1965, the
admission filter rejects "Amazing Spider-Man #20A CGC 9.8" (the issue
number followed by a letter suffix never yields a standalone "20" token)
and admits "Amazing Spider-Man 20 (1965)". -/
theorem C9_letter_suffix_admission :
    strict_title_issue_match "Amazing Spider-Man" (some "20") (some 1965)
        "Amazing Spider-Man #20A CGC 9.8" = false ∧
      strict_title_issue_match "Amazing Spider-Man" (some "20") (some 1965)
        "Amazing Spider-Man 20 (1965)" = true := by
  constructor
  · decide
  · decide

/-! ### Valuation aggregator (src/scripts/price_suggestions.py)

The per-item body of `main` (lines 123-283) is embedded as the pure
function `process_item` below.  The two SQL queries are modeled as
filter + LIMIT over input lists assumed to arrive in each query's
ORDER BY order (relevance then recency); the ordering itself is not
re-modeled — the claims below depend only on which comps exist, not on
their rank order.  The kernel-weighted fit uses `Real.exp`/`Real.log`,
so the estimator lives in ℝ. -/

/-- One `market_comps` row with the columns the aggregator reads. -/
structure MarketComp where
  id : ℕ
  listing_type : String
  title : Option String
  price : Option ℚ
  sold_date : Option String
  grade_numeric : Option ℚ
  match_score : Option ℚ
  grade_company : Option String
  is_raw : Bool

/-- `(r["grade_company"] or "").strip().upper()`. -/
def companyNorm (gc : Option String) : String :=
  String.mk ((stripSpaces (gc.getD "")).data.map Char.toUpper)

/-- Membership of the normalized grading house in `{"CGC", "CBCS"}`. -/
def isCertified (r : MarketComp) : Bool :=
  companyNorm r.grade_company == "CGC" || companyNorm r.grade_company == "CBCS"

/-- `_norm_title` applied to the optional title column. -/
def norm_title (t : Option String) : String := normalize (t.getD "")

/-- The dedupe key of `dedupe_comp_rows`
(src/scripts/price_suggestions.py line 59):
`(_norm_title(title), round(float(price or 0), 2), sold_date)`. -/
def dedupeKey (r : MarketComp) : String × ℚ × Option String :=
  (norm_title r.title, round2 (r.price.getD 0), r.sold_date)

def dedupeAux : List MarketComp → List (String × ℚ × Option String) → List MarketComp
  | [], _ => []
  | r :: rs, seen =>
    if dedupeKey r ∈ seen then dedupeAux rs seen
    else r :: dedupeAux rs (dedupeKey r :: seen)

/-- `dedupe_comp_rows` (src/scripts/price_suggestions.py lines 55-64):
keep the first row of each key. -/
def dedupe_comp_rows (rows : List MarketComp) : List MarketComp := dedupeAux rows []

/-- `median_val` (src/scripts/price_suggestions.py lines 67-75); this is
also the semantics of `statistics.median` as used on the nonempty price
lists of `main`. -/
def median_val (vals : List ℚ) : Option ℚ :=
  match vals with
  | [] => none
  | _ :: _ =>
    let s := sortQ vals
    let m := s.length / 2
    if s.length % 2 = 1 then some (s.getD m 0)
    else some ((s.getD (m - 1) 0 + s.getD m 0) / 2)

/-- Total median; callers only apply it to nonempty lists. -/
def medianQ (vals : List ℚ) : ℚ := (median_val vals).getD 0

/-- The usable point of one comp row for the grade fit:
`grade_numeric is not None and price is not None and float(price) > 0`. -/
def usablePoint (r : MarketComp) : Option (ℚ × ℚ) :=
  match r.grade_numeric, r.price with
  | some g, some p => if 0 < p then some (g, p) else none
  | _, _ => none

/-- The `pts` list of `grade_trend_price`
(src/scripts/price_suggestions.py line 85). -/
def usablePts (rows : List MarketComp) : List (ℚ × ℚ) := rows.filterMap usablePoint

/-- A present, strictly positive price: the comprehension
`[r["price"] for r in rows if r["price"] and r["price"] > 0]`. -/
def positivePrice (r : MarketComp) : Option ℚ :=
  match r.price with
  | some p => if 0 < p then some p else none
  | none => none

def positivePrices (rows : List MarketComp) : List ℚ := rows.filterMap positivePrice

/-- The grade-dependent kernel bandwidth
(src/scripts/price_suggestions.py lines 97-102). -/
def bandwidthFor (tg : ℚ) : ℚ :=
  if 9 ≤ tg then 22/100 else if 8 ≤ tg then 35/100 else 60/100

/-- The kernel weight `exp(-abs(g - tg) / bw)`. -/
noncomputable def weightOf (tg bw g : ℚ) : ℝ :=
  Real.exp (-((|g - tg| : ℚ) : ℝ) / (bw : ℝ))

/-- `wsum` of the fit loop. -/
noncomputable def wsumOf (pts : List (ℚ × ℚ)) (tg bw : ℚ) : ℝ :=
  (pts.map (fun gp => weightOf tg bw gp.1)).sum

/-- `lsum` of the fit loop: kernel-weighted sum of `log(price)`. -/
noncomputable def lsumOf (pts : List (ℚ × ℚ)) (tg bw : ℚ) : ℝ :=
  (pts.map (fun gp => weightOf tg bw gp.1 * Real.log (gp.2 : ℝ))).sum

/-- The weighted-geometric-mean fit `exp(lsum / wsum)`
(src/scripts/price_suggestions.py lines 104-112), `None` when
`wsum <= 0`. -/
noncomputable def fitAt (pts : List (ℚ × ℚ)) (tg : ℚ) : Option ℝ :=
  let bw := bandwidthFor tg
  if wsumOf pts tg bw ≤ 0 then none
  else some (Real.exp (lsumOf pts tg bw / wsumOf pts tg bw))

/-- The certified subset (`grade_company` in `{CGC, CBCS}`). -/
def certifiedRows (rows : List MarketComp) : List MarketComp := rows.filter isCertified

/-- The ±1.5-grade local window (src/scripts/price_suggestions.py
line 93). -/
def localWindow (pts : List (ℚ × ℚ)) (tg : ℚ) : List (ℚ × ℚ) :=
  pts.filter (fun gp => |gp.1 - tg| ≤ 3/2)

/-- `grade_trend_price` (src/scripts/price_suggestions.py lines 78-112). -/
noncomputable def grade_trend_price (rows : List MarketComp) (target_grade : Option ℚ)
    (is_slabbed_book : Bool) : Option ℝ :=
  let use_rows :=
    if is_slabbed_book ∧ 3 ≤ (certifiedRows rows).length then certifiedRows rows else rows
  let pts := usablePts use_rows
  match target_grade with
  | none => none
  | some tg =>
    if pts.length < 2 then none
    else
      let lpts := localWindow pts tg
      fitAt (if 3 ≤ lpts.length then lpts else pts) tg

/-- Python `round(x, 2)` on the float FMV chain, as exact rounding on ℝ. -/
noncomputable def round2R (x : ℝ) : ℝ := ((round (x * 100) : ℤ) : ℝ) / 100

/-- The primary FMV before guardrails (src/scripts/price_suggestions.py
lines 160-167): the fitted estimate marked up 5%, or the unweighted
median of all positive sold prices when the fit is unavailable. -/
noncomputable def fmv_before_guardrails (rows : List MarketComp) (tgt_grade : Option ℚ)
    (is_slabbed_book : Bool) (prices : List ℚ) : ℝ :=
  match grade_trend_price rows tgt_grade is_slabbed_book with
  | some t => round2R (t * (105/100))
  | none => ((round2 (medianQ prices) : ℚ) : ℝ)

/-- The barely-higher-grade comp filter of the high-grade guardrail
(src/scripts/price_suggestions.py line 172). -/
def higherComp (tg : ℚ) (r : MarketComp) : Option ℚ :=
  match r.grade_numeric, r.price with
  | some g, some p => if tg + 1/10 ≤ g ∧ g ≤ tg + 4/10 ∧ 0 < p then some p else none
  | _, _ => none

/-- Python `max` over a rational list. -/
def maxQ : List ℚ → Option ℚ
  | [] => none
  | x :: xs =>
    match maxQ xs with
    | none => some x
    | some y => some (max x y)

/-- The high-grade guardrail (src/scripts/price_suggestions.py lines
171-174): for target grade ≥ 9, floor at 80% of the best comp within
(tg+0.1, tg+0.4]. -/
noncomputable def highGradeGuard (rows : List MarketComp) (tgt_grade : Option ℚ) (u : ℝ) : ℝ :=
  match tgt_grade with
  | some tg =>
    if 9 ≤ tg then
      match maxQ (rows.filterMap (higherComp tg)) with
      | some h => round2R (max u ((h * (8/10) : ℚ) : ℝ))
      | none => u
    else u
  | none => u

/-- One certified (grade, price) point of the slab guardrail
(src/scripts/price_suggestions.py lines 179-187). -/
def certPoint (r : MarketComp) : Option (ℚ × ℚ) :=
  match r.grade_numeric, r.price with
  | some g, some p => if 0 < p ∧ isCertified r then some (g, p) else none
  | _, _ => none

/-- The per-grade best certified sale (`slab_pts`,
src/scripts/price_suggestions.py lines 189-195).  The source sorts the
pairs by grade; the sort is omitted because grouping makes the grades
distinct and the guardrail reads the list only through grade filters and
grade extrema, which are order-independent. -/
def slabPts (rows : List MarketComp) : List (ℚ × ℚ) :=
  let pts := rows.filterMap certPoint
  ((pts.map Prod.fst).dedup).filterMap (fun g =>
    match maxQ (pts.filterMap (fun gp => if gp.1 = g then some gp.2 else none)) with
    | some m => some (g, m)
    | none => none)

/-- Python `max(pairs, key=grade)`; ties keep the earlier pair. -/
def maxByFst : List (ℚ × ℚ) → Option (ℚ × ℚ)
  | [] => none
  | p :: ps =>
    match maxByFst ps with
    | none => some p
    | some q => some (if q.1 ≤ p.1 then p else q)

/-- Python `min(pairs, key=grade)`; ties keep the earlier pair. -/
def minByFst : List (ℚ × ℚ) → Option (ℚ × ℚ)
  | [] => none
  | p :: ps =>
    match minByFst ps with
    | none => some p
    | some q => some (if p.1 ≤ q.1 then p else q)

/-- The comparable-raw-sale filter of the slab guardrail
(src/scripts/price_suggestions.py lines 216-222): positive price, blank
(stripped) grading house, grade within ±0.5 of target. -/
def rawNearPrice (tg : ℚ) (r : MarketComp) : Option ℚ :=
  match r.grade_numeric, r.price with
  | some g, some p =>
    if 0 < p ∧ stripSpaces (r.grade_company.getD "") = "" ∧ |g - tg| ≤ 1/2 then some p
    else none
  | _, _ => none

/-- The slabbed guardrail chain (src/scripts/price_suggestions.py lines
177-224): interpolation floor between the nearest certified points below
and above the target grade, then the ±0.5 certified median floor, then
105% of the best same-band raw sale. -/
noncomputable def slabGuard (rows : List MarketComp) (tgt_grade : Option ℚ)
    (is_slabbed_book : Bool) (u : ℝ) : ℝ :=
  match is_slabbed_book, tgt_grade with
  | true, some tg =>
    let pts := slabPts rows
    let below := pts.filter (fun gp => gp.1 ≤ tg)
    let above := pts.filter (fun gp => tg ≤ gp.1)
    let u1 :=
      match maxByFst below, minByFst above with
      | some gb, some ga =>
        if gb.1 < ga.1 then
          round2R (max u (((gb.2 + (tg - gb.1) / (ga.1 - gb.1) * (ga.2 - gb.2)) : ℚ) : ℝ))
        else u
      | _, _ => u
    let near := pts.filterMap (fun gp => if |gp.1 - tg| ≤ 1/2 then some gp.2 else none)
    let u2 := if 2 ≤ near.length then round2R (max u1 ((medianQ near : ℚ) : ℝ)) else u1
    match maxQ (rows.filterMap (rawNearPrice tg)) with
    | some m => round2R (max u2 ((m * (105/100) : ℚ) : ℝ))
    | none => u2
  | _, _ => u

/-- The full `universal_market` computation for one item
(src/scripts/price_suggestions.py lines 160-224). -/
noncomputable def universal_market_of (rows : List MarketComp) (tgt_grade : Option ℚ)
    (is_slabbed_book : Bool) (prices : List ℚ) : ℝ :=
  slabGuard rows tgt_grade is_slabbed_book
    (highGradeGuard rows tgt_grade (fmv_before_guardrails rows tgt_grade is_slabbed_book prices))

/-- `confidence_from_count` (src/scripts/price_suggestions.py lines
14-19). -/
def confidence_from_count (n : ℕ) : String :=
  if 8 ≤ n then "high" else if 3 ≤ n then "medium" else "low"

/-- One inventory row as read by the aggregator's outer query. -/
structure Comic where
  id : ℕ
  title : Option String
  issue : Option String
  qualified_flag : Bool
  grade_numeric : Option ℚ
  cgc_cert : Option String

/-- The upserted `price_suggestions` row. -/
structure Valuation where
  quick_sale : ℝ
  market_price : ℝ
  premium_price : ℝ
  universal_market_price : ℝ
  qualified_market_price : ℝ
  active_anchor_price : Option ℚ
  active_count : ℕ
  confidence : String
  basis_count : ℕ

/-- The per-item persistent state: the optional `price_suggestions` row
and the `price_suggestion_evidence` rows `(comp_id, rank)`. -/
structure ItemState where
  valuation : Option Valuation
  evidence : List (ℕ × ℕ)

/-- The sold-comps query (src/scripts/price_suggestions.py lines
124-134): `listing_type='sold' AND price IS NOT NULL`, ordered by
relevance then recency (order assumed in the input), LIMIT 160. -/
def soldQueryRows (comps : List MarketComp) : List MarketComp :=
  (comps.filter (fun r => r.listing_type == "sold" && r.price.isSome)).take 160

/-- The active-comps query (src/scripts/price_suggestions.py lines
147-157): `listing_type='active' AND price IS NOT NULL`, LIMIT 20. -/
def activeQueryRows (comps : List MarketComp) : List MarketComp :=
  (comps.filter (fun r => r.listing_type == "active" && r.price.isSome)).take 20

/-- One iteration of the aggregator loop
(src/scripts/price_suggestions.py lines 123-283): with no positive sold
price the item's valuation and evidence rows are deleted; otherwise one
valuation row is upserted and the evidence rows are fully replaced.
The prior state is discarded either way, which embeds the
DELETE + upsert/INSERT write pattern. -/
noncomputable def process_item (c : Comic) (soldComps activeComps : List MarketComp)
    (_prior : ItemState) : ItemState :=
  let rows := dedupe_comp_rows (soldQueryRows soldComps)
  let is_slabbed_book := stripSpaces (c.cgc_cert.getD "") != ""
  let prices := positivePrices rows
  if prices.isEmpty then { valuation := none, evidence := [] }
  else
    let active_prices := positivePrices (activeQueryRows activeComps)
    let u := universal_market_of rows c.grade_numeric is_slabbed_book prices
    let qual_mult : ℝ := if c.qualified_flag then 6/10 else 1
    { valuation := some (
        { quick_sale := round2R (u * (9/10) * qual_mult)
          market_price := round2R (u * qual_mult)
          premium_price := round2R (u * (115/100) * qual_mult)
          universal_market_price := u
          qualified_market_price := round2R (u * (6/10))
          active_anchor_price :=
            if active_prices.isEmpty then none else some (round2 (medianQ active_prices))
          active_count := active_prices.length
          confidence := confidence_from_count prices.length
          basis_count := prices.length } : Valuation)
      evidence := rows.enum.map (fun p => (p.2.id, p.1 + 1)) }

lemma mem_dedupeAux {r : MarketComp} :
    ∀ {l : List MarketComp} {seen}, r ∈ dedupeAux l seen → r ∈ l := by
  intro l
  induction l with
  | nil => intro seen h; simp [dedupeAux] at h
  | cons x xs ih =>
    intro seen h
    rw [dedupeAux] at h
    split at h
    · exact List.mem_cons_of_mem _ (ih h)
    · rcases List.mem_cons.mp h with h1 | h2
      · exact h1 ▸ List.mem_cons_self _ _
      · exact List.mem_cons_of_mem _ (ih h2)

lemma mem_dedupe_comp_rows {r : MarketComp} {l : List MarketComp}
    (h : r ∈ dedupe_comp_rows l) : r ∈ l :=
  mem_dedupeAux h

/-! ### C4 -/

/-- C4: when an item has no sold comp with a positive price, the
aggregator run leaves it with no valuation row and no evidence rows,
whatever state it had before (the rows are deleted, not zeroed). -/
theorem C4_zero_usable_comps_deletes_valuation (c : Comic)
    (soldComps activeComps : List MarketComp) (prior : ItemState)
    (h : ∀ r ∈ soldComps, ∀ p, r.price = some p → p ≤ 0) :
    process_item c soldComps activeComps prior = { valuation := none, evidence := [] } := by
  have hnil : positivePrices (dedupe_comp_rows (soldQueryRows soldComps)) = [] := by
    rw [positivePrices, List.filterMap_eq_nil_iff]
    intro r hr
    have hr2 : r ∈ soldComps :=
      (List.filter_sublist soldComps).subset
        (List.take_subset 160 _ (mem_dedupe_comp_rows hr))
    rw [positivePrice]
    cases hp : r.price with
    | none => rfl
    | some p =>
      show (if 0 < p then some p else none) = none
      rw [if_neg (not_lt.mpr (h r hr2 p hp))]
  simp [process_item, hnil]

/-- A comp whose only sold record has price 0. -/
def zeroPriceComp : MarketComp :=
  { id := 3, listing_type := "sold", title := some "Fantastic Four 48", price := some 0,
    sold_date := some "2024-05-01", grade_numeric := some 8, match_score := some (1/2),
    grade_company := none, is_raw := true }

/-- An item and a prior state holding stale evidence rows. -/
def c4Comic : Comic :=
  { id := 1, title := some "Fantastic Four", issue := some "48", qualified_flag := false,
    grade_numeric := some 8, cgc_cert := none }

def c4Prior : ItemState := { valuation := none, evidence := [(9, 1), (10, 2)] }

/-- Witness for C4: a single zero-price sold comp, stale prior evidence. -/
theorem C4_zero_usable_comps_deletes_valuation_witness :
    (∀ r ∈ [zeroPriceComp], ∀ p, r.price = some p → p ≤ 0) ∧
      process_item c4Comic [zeroPriceComp] [] c4Prior =
        { valuation := none, evidence := [] } := by
  have hh : ∀ r ∈ [zeroPriceComp], ∀ p, r.price = some p → p ≤ 0 := by
    intro r hr p hp
    rw [List.mem_singleton] at hr
    subst hr
    rw [show zeroPriceComp.price = some 0 from rfl, Option.some_inj] at hp
    exact le_of_eq hp.symm
  exact ⟨hh, C4_zero_usable_comps_deletes_valuation c4Comic [zeroPriceComp] [] c4Prior hh⟩

/-! ### C5 -/

lemma usablePts_certified_length_le (rows : List MarketComp) :
    (usablePts (certifiedRows rows)).length ≤ (usablePts rows).length :=
  ((List.filter_sublist rows).filterMap usablePoint).length_le

/-- C5: with fewer than 2 usable (grade, price>0) points the curve
estimator returns the insufficient sentinel, and the aggregator's
pre-guardrail FMV is then the rounded unweighted median of the positive
sold prices. -/
theorem C5_insufficient_fit_falls_back_to_median (rows : List MarketComp)
    (tg : Option ℚ) (slab : Bool) (prices : List ℚ)
    (h : (usablePts rows).length < 2) :
    grade_trend_price rows tg slab = none ∧
      fmv_before_guardrails rows tg slab prices = ((round2 (medianQ prices) : ℚ) : ℝ) := by
  have hnone : grade_trend_price rows tg slab = none := by
    cases tg with
    | none => simp [grade_trend_price]
    | some t =>
      have hlen : (usablePts
          (if slab ∧ 3 ≤ (certifiedRows rows).length then certifiedRows rows
           else rows)).length < 2 := by
        split
        · exact lt_of_le_of_lt (usablePts_certified_length_le rows) h
        · exact h
      simp [grade_trend_price, hlen]
  refine ⟨hnone, ?_⟩
  rw [fmv_before_guardrails, hnone]

/-- A single usable sold comp (not enough for the fit). -/
def c5Comp : MarketComp :=
  { id := 4, listing_type := "sold", title := some "Silver Surfer 4", price := some 100,
    sold_date := some "2024-04-01", grade_numeric := some 8, match_score := some (3/4),
    grade_company := none, is_raw := true }

/-- Witness for C5 at one usable point. -/
theorem C5_insufficient_fit_falls_back_to_median_witness :
    (usablePts [c5Comp]).length < 2 ∧
      grade_trend_price [c5Comp] (some 8) false = none ∧
      fmv_before_guardrails [c5Comp] (some 8) false [100] =
        ((round2 (medianQ [100]) : ℚ) : ℝ) := by
  have hlen : (usablePts [c5Comp]).length < 2 := by
    norm_num [usablePts, usablePoint, c5Comp, List.filterMap_cons]
  exact ⟨hlen,
    (C5_insufficient_fit_falls_back_to_median [c5Comp] (some 8) false [100] hlen).1,
    (C5_insufficient_fit_falls_back_to_median [c5Comp] (some 8) false [100] hlen).2⟩

/-! ### C6 -/

/-- Replaces every comp price `p` with `k·p`. -/
def scalePrices (k : ℚ) (rows : List MarketComp) : List MarketComp :=
  rows.map (fun r => { r with price := r.price.map (fun p => k * p) })

lemma mul_pos_iff_of_pos_factor {k p : ℚ} (hk : 0 < k) : 0 < k * p ↔ 0 < p := by
  constructor
  · intro h
    by_contra hp
    nlinarith
  · exact fun h => mul_pos hk h

lemma usablePoint_scale (k : ℚ) (hk : 0 < k) (r : MarketComp) :
    usablePoint { r with price := r.price.map (fun p => k * p) } =
      (usablePoint r).map (fun gp => (gp.1, k * gp.2)) := by
  rcases r with ⟨i, lt, ti, pr, sd, gn, ms, gc, ir⟩
  cases gn <;> cases pr <;> simp [usablePoint]
  case some.some g p =>
    by_cases hp : 0 < p
    · rw [if_pos hp, if_pos ((mul_pos_iff_of_pos_factor hk).mpr hp)]
    · rw [if_neg hp, if_neg (fun hkp => hp ((mul_pos_iff_of_pos_factor hk).mp hkp))]

lemma usablePts_scale (k : ℚ) (hk : 0 < k) (rows : List MarketComp) :
    usablePts (scalePrices k rows) = (usablePts rows).map (fun gp => (gp.1, k * gp.2)) := by
  induction rows with
  | nil => rfl
  | cons r rs ih =>
    simp only [scalePrices, List.map_cons, usablePts, List.filterMap_cons] at ih ⊢
    rw [usablePoint_scale k hk r]
    cases husable : usablePoint r with
    | none => simpa using ih
    | some gp => simpa using ih

lemma certifiedRows_scale (k : ℚ) (rows : List MarketComp) :
    certifiedRows (scalePrices k rows) = scalePrices k (certifiedRows rows) := by
  induction rows with
  | nil => rfl
  | cons r rs ih =>
    simp only [scalePrices, certifiedRows, List.map_cons, List.filter_cons] at ih ⊢
    have hc : isCertified { r with price := r.price.map (fun p => k * p) } = isCertified r := rfl
    rw [hc]
    cases isCertified r <;> simp_all [scalePrices, certifiedRows]

lemma localWindow_scale (P : List (ℚ × ℚ)) (t k : ℚ) :
    localWindow (P.map (fun gp => (gp.1, k * gp.2))) t =
      (localWindow P t).map (fun gp => (gp.1, k * gp.2)) := by
  rw [localWindow, localWindow, List.filter_map]
  rfl

lemma usablePts_pos {rows : List MarketComp} {gp : ℚ × ℚ} (h : gp ∈ usablePts rows) :
    0 < gp.2 := by
  simp only [usablePts, List.mem_filterMap] at h
  obtain ⟨r, -, hr⟩ := h
  unfold usablePoint at hr
  split at hr
  · split at hr
    · rw [Option.some_inj] at hr
      subst hr
      assumption
    · exact absurd hr (by simp)
  · exact absurd hr (by simp)

lemma wsumOf_scale (pts : List (ℚ × ℚ)) (tg bw k : ℚ) :
    wsumOf (pts.map (fun gp => (gp.1, k * gp.2))) tg bw = wsumOf pts tg bw := by
  rw [wsumOf, wsumOf, List.map_map]
  rfl

lemma lsumOf_scale (tg bw k : ℚ) (hk : 0 < k) :
    ∀ pts : List (ℚ × ℚ), (∀ gp ∈ pts, 0 < gp.2) →
      lsumOf (pts.map (fun gp => (gp.1, k * gp.2))) tg bw =
        Real.log (k : ℝ) * wsumOf pts tg bw + lsumOf pts tg bw := by
  intro pts
  induction pts with
  | nil => intro _; simp [lsumOf, wsumOf]
  | cons gp rest ih =>
    intro hpos
    have h1 : 0 < gp.2 := hpos gp (List.mem_cons_self _ _)
    have h2 := ih (fun q hq => hpos q (List.mem_cons_of_mem _ hq))
    simp only [List.map_cons, lsumOf, wsumOf, List.sum_cons] at h2 ⊢
    have hlog : Real.log ((k * gp.2 : ℚ) : ℝ) = Real.log (k : ℝ) + Real.log (gp.2 : ℝ) := by
      push_cast
      rw [Real.log_mul (by exact_mod_cast hk.ne') (by exact_mod_cast h1.ne')]
    rw [hlog, h2]
    ring

lemma fitAt_scale (pts : List (ℚ × ℚ)) (tg k : ℚ) (hk : 0 < k)
    (hpos : ∀ gp ∈ pts, 0 < gp.2) :
    fitAt (pts.map (fun gp => (gp.1, k * gp.2))) tg =
      (fitAt pts tg).map (fun x => (k : ℝ) * x) := by
  simp only [fitAt]
  rw [wsumOf_scale]
  by_cases hw : wsumOf pts tg (bandwidthFor tg) ≤ 0
  · rw [if_pos hw, if_pos hw]
    rfl
  · rw [if_neg hw, if_neg hw]
    have hwne : wsumOf pts tg (bandwidthFor tg) ≠ 0 := fun h0 => hw (le_of_eq h0)
    rw [lsumOf_scale tg (bandwidthFor tg) k hk pts hpos, add_div,
      mul_div_cancel_right₀ _ hwne, Real.exp_add,
      Real.exp_log (by exact_mod_cast hk : (0:ℝ) < (k : ℚ))]
    rfl

/-- C6: scaling every comp price by k > 0 scales the curve estimator's
result by exactly k (weighted-geometric-mean homogeneity); in particular
the estimate is defined on the scaled input iff it is defined on the
original. -/
theorem C6_estimator_price_homogeneity (rows : List MarketComp) (tg : Option ℚ)
    (slab : Bool) (k : ℚ) (hk : 0 < k) :
    grade_trend_price (scalePrices k rows) tg slab =
      (grade_trend_price rows tg slab).map (fun x => (k : ℝ) * x) := by
  have husep : usablePts
        (if slab ∧ 3 ≤ (certifiedRows (scalePrices k rows)).length then
          certifiedRows (scalePrices k rows) else scalePrices k rows) =
      (usablePts (if slab ∧ 3 ≤ (certifiedRows rows).length then certifiedRows rows
        else rows)).map (fun gp => (gp.1, k * gp.2)) := by
    rw [certifiedRows_scale,
      show (scalePrices k (certifiedRows rows)).length = (certifiedRows rows).length from
        List.length_map _ _]
    split
    · rw [usablePts_scale k hk]
    · rw [usablePts_scale k hk]
  cases tg with
  | none => rfl
  | some t =>
    simp only [grade_trend_price]
    rw [husep, List.length_map]
    by_cases hlen : (usablePts (if slab ∧ 3 ≤ (certifiedRows rows).length then
        certifiedRows rows else rows)).length < 2
    · rw [if_pos hlen, if_pos hlen]
      rfl
    · rw [if_neg hlen, if_neg hlen, localWindow_scale, List.length_map]
      have hpos : ∀ gp ∈ usablePts (if slab ∧ 3 ≤ (certifiedRows rows).length then
          certifiedRows rows else rows), 0 < gp.2 := fun gp hgp => usablePts_pos hgp
      by_cases h3 : 3 ≤ (localWindow (usablePts (if slab ∧ 3 ≤ (certifiedRows rows).length
          then certifiedRows rows else rows)) t).length
      · rw [if_pos h3, if_pos h3]
        exact fitAt_scale _ t k hk (fun gp hgp => hpos gp (List.mem_of_mem_filter hgp))
      · rw [if_neg h3, if_neg h3]
        exact fitAt_scale _ t k hk hpos

/-- Two usable sold comps for the homogeneity witness. -/
def c6CompA : MarketComp :=
  { id := 11, listing_type := "sold", title := some "X-Men 12 raw", price := some 100,
    sold_date := some "2024-01-02", grade_numeric := some 8, match_score := some (6/10),
    grade_company := none, is_raw := true }

def c6CompB : MarketComp :=
  { id := 12, listing_type := "sold", title := some "X-Men 12 CGC 9.0", price := some 250,
    sold_date := some "2024-02-03", grade_numeric := some 9, match_score := some (8/10),
    grade_company := some "CGC", is_raw := false }

/-- Witness for C6 at k = 2 on a two-comp list. -/
theorem C6_estimator_price_homogeneity_witness :
    (0 : ℚ) < 2 ∧
      grade_trend_price (scalePrices 2 [c6CompA, c6CompB]) (some (17/2)) false =
        (grade_trend_price [c6CompA, c6CompB] (some (17/2)) false).map
          (fun x => ((2 : ℚ) : ℝ) * x) :=
  ⟨by norm_num,
    C6_estimator_price_homogeneity [c6CompA, c6CompB] (some (17/2)) false 2 (by norm_num)⟩

/-! ### C7 -/

/-- Certified comp at grade 8.0 sold for $400. -/
def c7CompLow : MarketComp :=
  { id := 21, listing_type := "sold", title := some "ASM 20 CGC 8.0", price := some 400,
    sold_date := some "2024-03-01", grade_numeric := some 8, match_score := some (9/10),
    grade_company := some "CGC", is_raw := false }

/-- Certified comp at grade 9.0 sold for $800. -/
def c7CompHigh : MarketComp :=
  { id := 22, listing_type := "sold", title := some "ASM 20 CGC 9.0", price := some 800,
    sold_date := some "2024-04-01", grade_numeric := some 9, match_score := some (9/10),
    grade_company := some "CGC", is_raw := false }

/-- A slabbed target of grade 8.5. -/
def c7Comic : Comic :=
  { id := 7, title := some "Amazing Spider-Man", issue := some "20", qualified_flag := false,
    grade_numeric := some (17/2), cgc_cert := some "1234567890" }

def emptyState : ItemState := { valuation := none, evidence := [] }

/-- The FMV the aggregator computes for the C7 scenario. -/
noncomputable def c7U : ℝ :=
  universal_market_of [c7CompLow, c7CompHigh] (some (17/2)) true [400, 800]

/-- The valuation row the aggregator writes for the C7 scenario. -/
noncomputable def c7Valuation : Valuation :=
  { quick_sale := round2R (c7U * (9/10) * 1), market_price := round2R (c7U * 1),
    premium_price := round2R (c7U * (115/100) * 1), universal_market_price := c7U,
    qualified_market_price := round2R (c7U * (6/10)), active_anchor_price := none,
    active_count := 0, confidence := "low", basis_count := 2 }

/-- Rounding to cents keeps a value that is already at least 600 at least
600 (round is monotone and 600 is exactly representable). -/
lemma le_round2R_max600 (x : ℝ) : (600:ℝ) ≤ round2R (max x 600) := by
  rw [round2R]
  have h2 : (60000 : ℤ) ≤ round ((max x 600) * 100) := by
    have h60 : round ((60000 : ℝ)) = 60000 := by norm_num [round_eq]
    calc (60000:ℤ) = round ((60000:ℝ)) := h60.symm
      _ ≤ round ((max x 600) * 100) := by
          rw [round_eq, round_eq]
          exact Int.floor_le_floor (by nlinarith [le_max_right x (600:ℝ)])
  have h3 : ((60000:ℤ) : ℝ) ≤ ((round ((max x 600) * 100) : ℤ) : ℝ) := by exact_mod_cast h2
  push_cast at h3
  linarith

/-- Whatever the fitted FMV, the slab guardrail floors the C7 scenario at
the $600 interpolation between the certified comps at 8.0/$400 and
9.0/$800 (the ±0.5 certified median is also $600). -/
lemma c7_slabGuard_bound (u : ℝ) :
    (600:ℝ) ≤ slabGuard [c7CompLow, c7CompHigh] (some (17/2)) true u := by
  have hpts : slabPts [c7CompLow, c7CompHigh] = [(8, 400), (9, 800)] := by decide
  have hraw : List.filterMap (rawNearPrice (17/2)) [c7CompLow, c7CompHigh] = [] := by decide
  norm_num [slabGuard, hpts, hraw, maxByFst, minByFst, medianQ, median_val, sortQ, insertQ,
    List.filterMap_cons, maxQ, abs_neg, abs_of_nonneg]
  exact le_round2R_max600 _

/-- C7: for a slabbed grade-8.5 target whose sold evidence holds certified
comps at 8.0/$400 and 9.0/$800, the aggregator writes a valuation whose
universal market price is at least $600 — the linear interpolation
between the neighbouring certified comps acts as a floor. -/
theorem C7_slab_interpolation_floor :
    (process_item c7Comic [c7CompLow, c7CompHigh] [] emptyState).valuation = some c7Valuation ∧
      (600:ℝ) ≤ c7Valuation.universal_market_price := by
  constructor
  · have hsold : soldQueryRows [c7CompLow, c7CompHigh] = [c7CompLow, c7CompHigh] := rfl
    have hkey : dedupeKey c7CompHigh ≠ dedupeKey c7CompLow := by
      intro h
      have h3 : c7CompHigh.sold_date = c7CompLow.sold_date := congrArg (fun t => t.2.2) h
      exact absurd h3 (by decide)
    have hded : dedupe_comp_rows [c7CompLow, c7CompHigh] = [c7CompLow, c7CompHigh] := by
      simp [dedupe_comp_rows, dedupeAux, hkey]
    have hprices : positivePrices [c7CompLow, c7CompHigh] = [400, 800] := by
      norm_num [positivePrices, positivePrice, c7CompLow, c7CompHigh, List.filterMap_cons]
    simp only [process_item, hsold, hded, hprices]
    rfl
  · exact c7_slabGuard_bound _

end ComicsSales
